import Mathlib

/-!
Verification of the role-management subsystem and the shell-side output
extractors of the repository (src/sgpt/role.py and src/sgpt/integration.py).

Text is modelled as `List Char` (named `Str`), so that every operation is an
executable, structurally recursive function a proof can both evaluate on
concrete inputs and reason about by induction.

The bash functions of integration.py (`_parse_first_markdown`,
`_parse_last_markdown`, `_sgpt_bash_fix`) live inside a Python string; they
are embedded here by modelling the exact sed/head/tr pipelines they run:
  - `sed` processes its input line by line; its pattern space never contains
    a newline, which matters for the regexes `s/\n.*//` (never matches) and
    the `\n*` parts of the fix-mode trimming (always match the empty string);
  - `sed -n '/A/,/B/p'` prints every range of lines that starts at a line
    matching A and ends at the next following line matching B (the end
    address is searched starting at the line after the start line);
  - in GNU sed's basic regular expressions an unescaped `{1,}` is a literal
    three-character string, not an interval, so the second fallback address
    in `_parse_first_markdown` matches only lines ending in the literal
    text backtick-brace-1-comma-brace;
  - `$(...)` command substitution strips trailing newlines, and
    `echo "$x"` appends one final newline.
-/

set_option maxRecDepth 100000

/-- Program text: a string modelled as a list of characters. -/
abbrev Str := List Char

/-- Convert a Lean string literal to the `Str` representation. -/
def str (s : String) : Str := s.toList

/-- The backtick character (code 96). -/
def backtick : Char := Char.ofNat 96

/-- The opening curly brace character (code 123). -/
def openBrace : Char := Char.ofNat 123

/-- The closing curly brace character (code 125). -/
def closeBrace : Char := Char.ofNat 125

/-- The single-quote character (code 39), used to assemble role texts that
contain it. -/
def squo : Str := [Char.ofNat 39]

/-- POSIX `[[:space:]]` class (also the whitespace set stripped by Python's
`str.strip`): space, tab, newline, vertical tab, form feed, carriage return. -/
def isSpaceCh (c : Char) : Bool :=
  c == ' ' || c == '\t' || c == '\n' || c == Char.ofNat 11 || c == Char.ofNat 12 || c == '\r'

/-- Split a text at every newline character; the result always has one more
element than the number of newlines (so it is never empty). -/
def splitNl : Str → List Str
  | [] => [[]]
  | c :: rest =>
    if c = '\n' then [] :: splitNl rest
    else
      match splitNl rest with
      | [] => [[c]]
      | s :: ss => (c :: s) :: ss

/-- Join lines with newline separators (inverse of `splitNl` on
newline-free lines). -/
def joinNl : List Str → Str
  | [] => []
  | [l] => l
  | l :: ls => l ++ '\n' :: joinNl ls

/-- The list of lines `sed` processes when fed `echo "$t"` (echo appends a
final newline, which terminates the last line): exactly `splitNl t`. -/
def sedLines (t : Str) : List Str := splitNl t

/-- `$(...)` command substitution: strips all trailing newlines from the
captured output. -/
def cmdSubst (s : Str) : Str := (s.reverse.dropWhile (fun c => c == '\n')).reverse

/-- Line matching for the sed address `/`+bash[^`]*\( -c\)\?$/` (one or more
backticks, then `bash`, then any non-backtick characters, then an optional
` -c`, anchored at end of line).  Such a match exists iff somewhere in the
line a backtick is immediately followed by `bash` and the remainder of the
line after that `bash` contains no backtick (the optional ` -c` is already
covered by `[^`]*`). -/
def matchesBashFence : Str → Bool
  | [] => false
  | c :: rest =>
    (c == backtick && (str "bash").isPrefixOf rest
      && (rest.drop 4).all (fun d => d != backtick))
    || matchesBashFence rest

/-- Line matching for the sed address `/`/`: the line contains a backtick. -/
def containsBacktickB (l : Str) : Bool := l.any (fun c => c == backtick)

/-- The literal five-character text backtick-brace-1-comma-brace that the
unescaped BRE `/`{1,}$/` of the second fallback actually looks for at end of
line. -/
def litAnyFenceSuffix : Str := [backtick, openBrace, '1', ',', closeBrace]

/-- Line matching for the sed address `/`{1,}$/` (unescaped braces are
literal characters in GNU sed BRE, so this matches only lines that end with
the literal text backtick-brace-1-comma-brace). -/
def matchesLitAnyFence (l : Str) : Bool := litAnyFenceSuffix.isSuffixOf l

/-- `sed -n '/A/,/B/p'`: print every line of every range that starts at a
line matching `A` (the range's end address `B` is searched from the
following line onward). The boolean argument is the "currently inside a
range" state, initially `false`. -/
def sedRange (isA isB : Str → Bool) : List Str → Bool → List Str
  | [], _ => []
  | l :: ls, false =>
    if isA l then l :: sedRange isA isB ls true else sedRange isA isB ls false
  | l :: ls, true => l :: sedRange isA isB ls (!isB l)

/-- The substitution `s/^`\{1,\}\([^`]*\)\?`\{1,\}$/\1/` applied to one line:
if the whole line is one-or-more backticks, then non-backtick characters,
then one-or-more backticks, keep only the middle part; otherwise leave the
line unchanged. A line consisting solely of two or more backticks also
matches (with empty middle). -/
def trimInline (l : Str) : Str :=
  let lead := l.takeWhile (fun c => c == backtick)
  let rest := l.dropWhile (fun c => c == backtick)
  if rest.isEmpty then
    if 2 ≤ lead.length then [] else l
  else
    let trail := rest.reverse.takeWhile (fun c => c == backtick)
    let mid := (rest.reverse.dropWhile (fun c => c == backtick)).reverse
    if !lead.isEmpty && !trail.isEmpty && mid.all (fun c => c != backtick) then mid else l

/-- The substitution `s/^[[:space:]]*//` applied to one line. -/
def stripLeadingSpace (l : Str) : Str := l.dropWhile isSpaceCh

/-- The substitution `s/[[:space:]]*$//` applied to one line. -/
def stripTrailingSpace (l : Str) : Str := (l.reverse.dropWhile isSpaceCh).reverse

/-- The final trimming sed of `_parse_first_markdown`
(`s/^`\{1,\}\([^`]*\)\?`\{1,\}$/\1/;s/^[[:space:]]*//;s/[[:space:]]*$//`)
applied to one line. -/
def trimFinal (l : Str) : Str := stripTrailingSpace (stripLeadingSpace (trimInline l))

/-- The substitution `s/\n.*//` applied to one line of sed's pattern space:
delete everything from the first newline on. Since a pattern space never
contains a newline, this is the identity on every actual line. -/
def substNlDotStar (l : Str) : Str := l.takeWhile (fun c => c != '\n')

/-- `_parse_first_markdown` (integration.py lines 16-34): three layered
attempts (bash-tagged fence range, literal-brace fallback address, the
inoperative `s/\n.*//` first-line fallback), then the final trimming sed
applied line by line, output re-joined and captured by `$(...)`. -/
def parse_first_markdown (t : Str) : Str :=
  let ls := sedLines t
  let fcb1 := (sedRange matchesBashFence containsBacktickB ls false).headD []
  let fcb2 :=
    if fcb1.isEmpty then (sedRange matchesLitAnyFence containsBacktickB ls false).headD []
    else fcb1
  let fcb3 := if fcb2.isEmpty then cmdSubst (joinNl (ls.map substNlDotStar)) else fcb2
  cmdSubst (joinNl ((sedLines fcb3).map trimFinal))

/-- The substitution `s/^`\{1,\}bash[^`]*\( -c\)\?[[:space:]]*\n*//` of the
fix-mode trimming sed applied to one line: if the line starts with a run of
backticks immediately followed by `bash`, remove that prefix together with
the longest following backtick-free stretch (which swallows any ` -c` flag
and trailing spaces); `\n*` matches the empty string in a pattern space. -/
def fixF1 (l : Str) : Str :=
  let bt := l.takeWhile (fun c => c == backtick)
  let r := l.dropWhile (fun c => c == backtick)
  if !bt.isEmpty && (str "bash").isPrefixOf r then (r.drop 4).dropWhile (fun c => c != backtick)
  else l

/-- The substitution `s/[[:space:]]*\n*`\{1,\}$//` of the fix-mode trimming
sed applied to one line: if the line ends with a run of backticks, remove
that run and the whitespace run immediately before it. -/
def fixF2 (l : Str) : Str :=
  let rev := l.reverse
  if !(rev.takeWhile (fun c => c == backtick)).isEmpty then
    ((rev.dropWhile (fun c => c == backtick)).dropWhile isSpaceCh).reverse
  else l

/-- The whole fix-mode trimming sed
(`s/^`\{1,\}bash[^`]*\( -c\)\?[[:space:]]*\n*//;s/[[:space:]]*\n*`\{1,\}$//;s/^[[:space:]]*//;s/[[:space:]]*$//`)
applied to one line. -/
def fixTrim (l : Str) : Str := stripTrailingSpace (stripLeadingSpace (fixF2 (fixF1 l)))

/-- `_parse_last_markdown` (integration.py lines 36-46): print every
bash-fence-started range, capture with `$(...)`; if the capture is nonempty,
trim each line with the fix-mode sed and delete every newline with
`tr -d '\n'` (concatenating the trimmed lines without separator); an empty
capture produces empty output. -/
def parse_last_markdown (t : Str) : Str :=
  let ls := sedLines t
  let lcb := cmdSubst (joinNl (sedRange matchesBashFence containsBacktickB ls false))
  if lcb.isEmpty then [] else (((sedLines lcb).map fixTrim).flatten)

/-- `_sgpt_bash_fix` (integration.py lines 104-121), restricted to its
effect on the line-editor buffer `READLINE_LINE`: when the buffer is
nonempty, the model's fix explanation is parsed with `_parse_last_markdown`
and the result is assigned to the buffer unconditionally
(`READLINE_LINE=$fixed_command`); when the buffer is empty nothing happens.
The first argument is the buffer, the second the model output. -/
def sgpt_bash_fix (readline_line fix_explanation : Str) : Str :=
  if readline_line.isEmpty then readline_line else parse_last_markdown fix_explanation

/-!
## role.py: templates, the role store, the selector

Python's `str.format` is modelled by a single left-to-right scan
(`formatGo`): outside braces characters are copied, `{` opens a key, `}`
closes it and substitutes the mapping's value; a stray `}` or an
unterminated `{` is a formatting error (Python raises ValueError), and a
key absent from the mapping is a formatting error (Python raises KeyError);
errors are modelled as `none`.  The brace-escapes of `str.format` are not
modelled: no template of the program contains a literal brace.

Durable storage is modelled as a map from role name to the persisted
record; `_file_path.write_text(json.dumps(self.__dict__))` serialises
exactly the fields `name` and `role`, and `json.dumps` is injective on such
dictionaries, so a persisted file's bytes are identified with the record
`{name, role}` and byte-identity of files with equality of records.
Directory creation (`storage.mkdir`) has no observable effect in this model.
The interactive `typer.confirm(..., abort=True)` call is modelled by a
boolean argument giving the user's answer; a declined confirmation raises
`Abort` before any write, which the model renders as returning the store
unchanged together with the flag `false` ("aborted").
-/

/-- A variable mapping passed to `str.format(**variables)`. -/
abbrev VarMap := List (Str × Str)

/-- Dictionary lookup in a variable mapping (keys are unique in the
program's mappings). -/
def lookupVar : VarMap → Str → Option Str
  | [], _ => none
  | (k, v) :: rest, key => if k = key then some v else lookupVar rest key

/-- One-pass scan modelling `str.format`.  The second argument is the scan
state: `none` while outside braces, `some acc` while reading a key (`acc`
holds the key's characters in reverse). -/
def formatGo (m : Str → Option Str) : Str → Option Str → Option Str
  | [], acc => match acc with | none => some [] | some _ => none
  | c :: rest, none =>
    if c = openBrace then formatGo m rest (some [])
    else if c = closeBrace then none
    else (formatGo m rest none).map (fun s => c :: s)
  | c :: rest, some acc =>
    if c = closeBrace then
      match m acc.reverse with
      | some v => (formatGo m rest none).map (fun s => v ++ s)
      | none => none
    else formatGo m rest (some (c :: acc))

/-- `template.format(**variables)`: `some` result on success, `none` for a
`KeyError`/`ValueError` (which the program does not catch). -/
def pyFormat (m : Str → Option Str) (t : Str) : Option Str := formatGo m t none

/-- The placeholder keys referenced by a template, collected by the same
scan `formatGo` performs (a scan cut short by a stray `}` contributes no
further keys; `formatGo` fails on such input anyway). -/
def placeholdersGo : Str → Option Str → List Str
  | [], _ => []
  | c :: rest, none =>
    if c = openBrace then placeholdersGo rest (some [])
    else if c = closeBrace then []
    else placeholdersGo rest none
  | c :: rest, some acc =>
    if c = closeBrace then acc.reverse :: placeholdersGo rest none
    else placeholdersGo rest (some (c :: acc))

/-- The placeholder keys referenced by a template. -/
def placeholders (t : Str) : List Str := placeholdersGo t none

/-- `SHELL_ROLE` (role.py lines 16-27). -/
def SHELL_ROLE : Str := str "You are a {shell} shell command generator for {os}\nGenerate only valid bash commands, without explanations or additional text.\nHandle incomplete prompts by providing the most logical solution.\nCombine multiple steps using && when necessary.\nOutput plain text only, without formatting or markdown.\nEnsure commands are concise, efficient, and adhere to best practices.\nConsider edge cases and potential errors, and handle them appropriately.\nOptimize commands for performance and resource usage when relevant.\nUse clear and standard syntax, following bash conventions.\nRemember, output the command described in natural language, then stop typing anything.\nAny text after the first newline is going to be discarded unless you choose to place the {shell} shell text in markdown.\nThe task prescribed to you is only to translate from natural language to {shell} shell commands."

/-- `DESCRIBE_SHELL_ROLE` (role.py lines 29-38). -/
def DESCRIBE_SHELL_ROLE : Str := str "You are a Shell Command Descriptor.\nFor a given {shell} shell command in {os}\n* Provide a concise, single-sentence description.\n* Explain each argument and option of the command in a brief paragraph.\n* Use Markdown formatting with triple or single backticks when appropriate, ensuring proper syntax with opening and closing backticks.\n* Keep text inside Markdown concise and descriptions as short as possible.\n* Use clear, technical language and maintain a consistent structure for each command description.\n* Highlight key aspects such as required vs. optional arguments and default behaviors.\n* Provide usage examples if necessary for clarity, using Markdown for code blocks.\n* Ensure accuracy and completeness in your descriptions."

/-- `SHELL_COMMAND_FIXER_ROLE` (role.py lines 41-52); the two apostrophes of
the source text are spliced in as `squo`. -/
def SHELL_COMMAND_FIXER_ROLE : Str := str "You are a {shell} Shell Command Fixer operating within a controlled installation of {os}\nAnalyze single-line {shell} commands for potential errors.\nIf erroneous, provide a corrected command that is both valid and optimized.\nAddress common errors like incorrect flags, missing arguments, or syntax issues.\nConsider edge cases and potential unintended consequences.\nExplain corrections concisely using Markdown formatting.\nSuggest alternative approaches when applicable.\nOutput valid commands verbatim.\nEnsure that you take reasonable steps to ensure compatibility with the user" ++ squo ++ str "s {shell} shell version and OS.\nOutput the fixed or original command followed by any explanations or suggestions.\nAvoid placeholders unless present in the original command.\nPrioritize working solutions that align with the user" ++ squo ++ str "s intent, avoiding unnecessary simplification."

/-- `CODE_ROLE` (role.py lines 54-62; the source string ends with a
newline). -/
def CODE_ROLE : Str := str "You are a Code Generator.\nGenerate code snippets or scripts based on the provided prompt.\nOutput the code directly, without explanations or descriptions.\nUse plain text format without markdown or code delimiters.\nAssume the most logical solution for incomplete prompts.\nFocus on concise, functional code adhering to best practices.\nInfer the programming language from the prompt if not specified.\nPrioritize code clarity and brevity.\n"

/-- `DEFAULT_ROLE` (role.py lines 64-75; the source string ends with a
newline); the two apostrophes of the source text are spliced in as `squo`. -/
def DEFAULT_ROLE : Str := str "You are ShellGPT, a {os} system administrator with expertise in the {shell} shell.\nRespond concisely, aiming for around 100 words unless more detail is needed.\nUtilize Markdown formatting for commands (bash code blocks) and code tools (Python Jupyter notebook cells).\nExplain complex topics clearly, using examples when beneficial.\nAdapt your communication style to the user" ++ squo ++ str "s specific requirements.\nAssume data storage within the conversation context.\nProvide step-by-step guidance for tasks and troubleshooting.\nPrioritize accurate, efficient solutions based on best practices.\nGenerate executable code and shell commands without requiring modifications.\nPrompt for additional information when necessary.\nFocus on fulfilling the user" ++ squo ++ str "s specific needs.\n"

/-- `ROLE_TEMPLATE` (role.py line 78). -/
def ROLE_TEMPLATE : Str := str "You are {name}\n{role}"

/-- A role record: the two instance attributes `name` and `role` of
`SystemRole`, which are also exactly what `_save` persists
(`json.dumps(self.__dict__)`). -/
structure SystemRole where
  name : Str
  role : Str
deriving DecidableEq, Repr

/-- Durable role storage: role name ↦ persisted record (one `{name}.json`
file per role under the storage root). -/
abbrev Store := Str → Option SystemRole

/-- `ROLE_TEMPLATE.format(name=self.name, role=self.role)`: both keys are
always supplied, so the result is the plain header-wrapped text. -/
def wrap (name role : Str) : Str := str "You are " ++ name ++ '\n' :: role

/-- `SystemRole.__init__` (role.py lines 84-94): if a truthy `variables`
mapping is supplied the role text is formatted with it (a missing key
raises, modelled as `none`); otherwise the text is kept verbatim.  The
`storage.mkdir` side effect is not modelled. -/
def SystemRole.init (name role : Str) (vars0 : Option VarMap) : Option SystemRole :=
  match vars0 with
  | none => some ⟨name, role⟩
  | some vars =>
    if vars.isEmpty then some ⟨name, role⟩
    else (pyFormat (lookupVar vars) role).map (fun resolved => ⟨name, resolved⟩)

/-- `SystemRole.get` (role.py lines 110-115): load the persisted record by
name (`none` models the `BadArgumentUsage` "Role not found" error).  The
loaded record is rebuilt by `cls(**json.loads(...))` with no `variables`
key, so it is exactly the stored `{name, role}` pair. -/
def SystemRole.get (st : Store) (name : Str) : Option SystemRole := st name

/-- The write performed by `_save` (role.py lines 183-184): rewrap the
in-memory role text with `ROLE_TEMPLATE` and persist the record under its
name. -/
def writeRole (st : Store) (r : SystemRole) : Store :=
  fun n => if n = r.name then some ⟨r.name, wrap r.name r.role⟩ else st n

/-- `SystemRole._save` (role.py lines 176-184) with the user's answer to the
overwrite confirmation as an explicit argument: when a record of the same
name exists and the user declines, `typer.confirm(abort=True)` raises
`Abort` before anything is written (result: unchanged store, flag `false`);
otherwise the rewrapped record is written (flag `true`).  When no record
exists the prompt is never shown. -/
def saveRun (st : Store) (r : SystemRole) (confirmAnswer : Bool) : Store × Bool :=
  if (st r.name).isSome && !confirmAnswer then (st, false) else (writeRole st r, true)

/-- One iteration of the `create_defaults` loop (role.py lines 107-108):
`if not default_role._exists: default_role._save()`.  On this path `_save`'s
own existence check is false, so no confirmation prompt occurs and the
write is unconditional. -/
def bootStep (st : Store) (r : SystemRole) : Store :=
  if (st r.name).isSome then st else writeRole st r

/-- The `variables` mapping of `create_defaults` (role.py line 99); the
`shell` and `os` arguments model the pure platform probes `_shell_name()`
and `_os_name()`. -/
def defaultVariables (shell os : Str) : VarMap :=
  [(str "shell", shell), (str "os", os)]

/-- The names of the five built-in default roles, in the order
`create_defaults` creates them. -/
def defaultNames : List Str :=
  [str "ShellGPT", str "Shell Command Generator", str "Shell Command Descriptor",
    str "Code Generator", str "Shell Command Fixer"]

/-- `SystemRole.create_defaults` (role.py lines 96-108): instantiate the
five built-in roles (the tuple is built before the loop runs, so a
formatting error aborts before any write, modelled as `none`), then persist
each one that does not already exist. -/
def SystemRole.create_defaults (shell os : Str) (st : Store) : Option Store :=
  let vars := defaultVariables shell os
  match SystemRole.init (str "ShellGPT") DEFAULT_ROLE (some vars),
      SystemRole.init (str "Shell Command Generator") SHELL_ROLE (some vars),
      SystemRole.init (str "Shell Command Descriptor") DESCRIBE_SHELL_ROLE (some vars),
      SystemRole.init (str "Code Generator") CODE_ROLE none,
      SystemRole.init (str "Shell Command Fixer") SHELL_COMMAND_FIXER_ROLE (some vars) with
  | some r1, some r2, some r3, some r4, some r5 =>
    some ([r1, r2, r3, r4, r5].foldl bootStep st)
  | _, _, _, _, _ => none

/-- Fuel-driven worker for Python's `str.split(sep)` with a nonempty
separator (the fuel is an upper bound on the number of characters consumed,
so `length + 1` always suffices; it only makes the recursion structural). -/
def splitOnSubF (sep : Str) : Nat → Str → Str → List Str
  | 0, l, acc => [acc.reverse ++ l]
  | _ + 1, [], acc => [acc.reverse]
  | fuel + 1, c :: rest, acc =>
    if sep.isPrefixOf (c :: rest) then
      acc.reverse :: splitOnSubF sep fuel (List.drop sep.length (c :: rest)) []
    else splitOnSubF sep fuel rest (c :: acc)

/-- Python's `str.split(sep)` for a nonempty separator: split at every
non-overlapping occurrence, left to right. -/
def splitOnSub (sep l : Str) : List Str := splitOnSubF sep (l.length + 1) l []

/-- Python's `str.strip()`: remove leading and trailing whitespace. -/
def pyStrip (l : Str) : Str := stripTrailingSpace (stripLeadingSpace l)

/-- Python's `in` on strings: `pat` occurs as a contiguous substring of the
second argument. -/
def containsSub (pat : Str) : Str → Bool
  | [] => pat.isEmpty
  | c :: rest => pat.isPrefixOf (c :: rest) || containsSub pat rest

/-- Python's `str.splitlines()` restricted to `\n` separators (the only
line break occurring in the program's texts): newline-separated segments,
without the empty segment after a terminating newline; the empty string has
no lines. -/
def pySplitlines (l : Str) : List Str :=
  if l.isEmpty then []
  else if l.getLast? = some '\n' then (splitNl l).dropLast
  else splitNl l

/-- The first line of a text: everything before the first newline. -/
def firstLine (l : Str) : Str := l.takeWhile (fun c => c != '\n')

/-- `SystemRole.get_role_name` (role.py lines 140-147): `None` on empty
input; else take the first line, and if it contains `You are`, split it on
`You are ` (with trailing space) and return element 1 stripped.  A first
line containing `You are` but not `You are ` makes the `[1]` subscript
raise `IndexError`; that crash is modelled as `none` (no claim depends on
it). -/
def get_role_name (initial_message : Str) : Option Str :=
  if initial_message.isEmpty then none
  else
    let line0 := (pySplitlines initial_message).headD []
    if containsSub (str "You are") line0 then
      match splitOnSub (str "You are ") line0 with
      | _ :: second :: _ => some (pyStrip second)
      | _ => none
    else none

/-- The `DefaultRoles` enumeration (role.py lines 200-205). -/
inductive DefaultRoles where
  | DEFAULT
  | SHELL
  | SHELL_COMMAND_FIXER
  | DESCRIBE_SHELL
  | CODE
deriving DecidableEq, Repr

/-- The `value` of each `DefaultRoles` member (role.py lines 201-205). -/
def DefaultRoles.value : DefaultRoles → Str
  | .DEFAULT => str "ShellGPT"
  | .SHELL => str "Shell Command Generator"
  | .SHELL_COMMAND_FIXER => str "Shell Command Fixer"
  | .DESCRIBE_SHELL => str "Shell Command Descriptor"
  | .CODE => str "Code Generator"

/-- `DefaultRoles.check_get` (role.py lines 207-217): the chain of
conditionals dispatching the four CLI intent flags to a stored role. -/
def DefaultRoles.check_get (st : Store) (shell describe_shell code shell_fix : Bool) :
    Option SystemRole :=
  if shell then SystemRole.get st DefaultRoles.SHELL.value
  else if describe_shell then SystemRole.get st DefaultRoles.DESCRIBE_SHELL.value
  else if code then SystemRole.get st DefaultRoles.CODE.value
  else if shell_fix then SystemRole.get st DefaultRoles.SHELL_COMMAND_FIXER.value
  else SystemRole.get st DefaultRoles.DEFAULT.value

/-- The role selection demanded by the spec's words (§4.3): "priority order
when multiple flags are set simultaneously: shell-mode > describe-mode >
code-mode > fix-mode > default".  Stated as its own definition so the
implementation can be compared against it. -/
def roleSelectorSpec (shell describe_shell code shell_fix : Bool) : DefaultRoles :=
  if shell then .SHELL
  else if describe_shell then .DESCRIBE_SHELL
  else if code then .CODE
  else if shell_fix then .SHELL_COMMAND_FIXER
  else .DEFAULT

/-!
## Helper lemmas
-/

/-- `sed -n '/A/,/B/p'` prints nothing when no line matches the start
address. -/
theorem sedRange_nil_of_no_start (isA isB : Str → Bool) (ls : List Str)
    (h : ∀ l ∈ ls, isA l = false) : sedRange isA isB ls false = [] := by
  induction ls with
  | nil => rfl
  | cons l ls ih =>
    have hl : isA l = false := h l (List.mem_cons_self l ls)
    simp only [sedRange, hl, Bool.false_eq_true, if_false]
    exact ih fun x hx => h x (List.mem_cons_of_mem _ hx)

/-- Taking the first line of a text that starts with a newline-free prefix
followed by a newline recovers exactly that prefix. -/
theorem firstLine_append_nl (a b : Str) (h : '\n' ∉ a) :
    firstLine (a ++ '\n' :: b) = a := by
  induction a with
  | nil => simp [firstLine]
  | cons c a ih =>
    have hc : c ≠ '\n' := fun e => h (by simp [e])
    have ha : '\n' ∉ a := fun hm => h (List.mem_cons_of_mem _ hm)
    have ihc := ih ha
    simp only [firstLine] at ihc ⊢
    simp [List.takeWhile_cons, hc, ihc]

/-- `get_role_name` recovers the name from the first line of any
header-wrapped role text whose name is newline-free and is correctly
extracted from the concrete header line. -/
theorem get_role_name_wrap (nm body : Str) (hnl : '\n' ∉ nm)
    (hval : get_role_name (str "You are " ++ nm) = some nm) :
    get_role_name (firstLine (wrap nm body)) = some nm := by
  have e : wrap nm body = (str "You are " ++ nm) ++ '\n' :: body := by
    simp [wrap, List.append_assoc]
  have hnl2 : '\n' ∉ str "You are " ++ nm := by
    intro hm
    rcases List.mem_append.mp hm with h1 | h2
    · revert h1
      decide
    · exact hnl h2
  rw [e, firstLine_append_nl _ _ hnl2, hval]

/-- If the running `formatGo` scan references a key the mapping lacks, the
scan fails. -/
theorem formatGo_none_of_missing (m : Str → Option Str) (t : Str) :
    ∀ (acc : Option Str) (k : Str), k ∈ placeholdersGo t acc → m k = none →
      formatGo m t acc = none := by
  induction t with
  | nil =>
    intro acc k hk hm
    simp [placeholdersGo] at hk
  | cons c rest ih =>
    intro acc k hk hm
    cases acc with
    | none =>
      by_cases hob : c = openBrace
      · subst hob
        simp only [placeholdersGo, if_pos rfl] at hk
        simp only [formatGo, if_pos rfl]
        exact ih _ _ hk hm
      · by_cases hcb : c = closeBrace
        · subst hcb
          simp [formatGo, show closeBrace ≠ openBrace from by decide]
        · simp only [placeholdersGo, hob, hcb, if_false] at hk
          simp only [formatGo, hob, hcb, if_false]
          rw [ih _ _ hk hm]
          rfl
    | some acc =>
      by_cases hcb : c = closeBrace
      · subst hcb
        simp only [placeholdersGo, if_pos rfl] at hk
        rcases List.mem_cons.mp hk with hk | hk
        · subst hk
          simp [formatGo, hm]
        · cases hmv : m acc.reverse with
          | none => simp [formatGo, hmv]
          | some v =>
            simp only [formatGo, if_pos rfl, hmv]
            rw [ih _ _ hk hm]
            rfl
      · simp only [placeholdersGo, hcb, if_false] at hk
        simp only [formatGo, hcb, if_false]
        exact ih _ _ hk hm

/-- If formatting with a total mapping succeeds (the template is
well-formed) and the mapping is defined on every referenced key, the scan
succeeds. -/
theorem formatGo_isSome_of_keys (m : Str → Option Str) (t : Str) :
    ∀ acc : Option Str,
      (formatGo (fun _ => some []) t acc).isSome = true →
      (∀ k ∈ placeholdersGo t acc, (m k).isSome = true) →
      (formatGo m t acc).isSome = true := by
  induction t with
  | nil =>
    intro acc hwf _
    cases acc with
    | none => simp [formatGo]
    | some a => simp [formatGo] at hwf
  | cons c rest ih =>
    intro acc hwf hkeys
    cases acc with
    | none =>
      by_cases hob : c = openBrace
      · subst hob
        simp only [formatGo, if_pos rfl] at hwf ⊢
        refine ih _ hwf fun k hk => hkeys k ?_
        simpa only [placeholdersGo, if_pos rfl] using hk
      · by_cases hcb : c = closeBrace
        · subst hcb
          simp [formatGo, show closeBrace ≠ openBrace from by decide] at hwf
        · simp only [formatGo, hob, hcb, if_false] at hwf ⊢
          cases hfe : formatGo (fun _ => some []) rest none with
          | none => rw [hfe] at hwf; simp at hwf
          | some w =>
            have h1 : (formatGo (fun _ => some []) rest none).isSome = true := by
              simp [hfe]
            have h2 := ih none h1 fun k hk =>
              hkeys k (by simpa only [placeholdersGo, hob, hcb, if_false] using hk)
            cases hge : formatGo m rest none with
            | none => rw [hge] at h2; simp at h2
            | some w2 => simp [hge]
    | some acc =>
      by_cases hcb : c = closeBrace
      · subst hcb
        have hsome : (m acc.reverse).isSome = true :=
          hkeys _ (by simp [placeholdersGo])
        obtain ⟨v, hv⟩ := Option.isSome_iff_exists.mp hsome
        simp only [formatGo, if_pos rfl, hv] at hwf ⊢
        cases hfe : formatGo (fun _ => some []) rest none with
        | none => rw [hfe] at hwf; simp at hwf
        | some w =>
          have h1 : (formatGo (fun _ => some []) rest none).isSome = true := by
            simp [hfe]
          have h2 := ih none h1 fun k hk =>
            hkeys k (by simp [placeholdersGo, hk])
          cases hge : formatGo m rest none with
          | none => rw [hge] at h2; simp at h2
          | some w2 => simp [hge]
      · simp only [formatGo, hcb, if_false] at hwf ⊢
        refine ih _ hwf fun k hk => hkeys k ?_
        simpa only [placeholdersGo, hcb, if_false] using hk

/-- The `create_defaults` variable mapping is defined on `shell` and
`os`. -/
theorem lookupVar_defaults_isSome (shell os k : Str)
    (hk : k = str "shell" ∨ k = str "os") :
    (lookupVar (defaultVariables shell os) k).isSome = true := by
  rcases hk with hk | hk <;> subst hk
  · simp [lookupVar, defaultVariables]
  · simp [lookupVar, defaultVariables, show str "shell" ≠ str "os" from by decide]

/-- A built-in template whose placeholders all lie in `{shell, os}` and
which is well-formed instantiates successfully under `create_defaults`'s
variable mapping, keeping its name. -/
theorem init_default_isSome (shell os nm t : Str)
    (hwf : (formatGo (fun _ => some []) t none).isSome = true)
    (hph : ∀ k ∈ placeholders t, k = str "shell" ∨ k = str "os") :
    ∃ r : SystemRole,
      SystemRole.init nm t (some (defaultVariables shell os)) = some r ∧ r.name = nm := by
  have h1 : (formatGo (lookupVar (defaultVariables shell os)) t none).isSome = true :=
    formatGo_isSome_of_keys _ t none hwf
      (fun k hk => lookupVar_defaults_isSome shell os k (hph k hk))
  obtain ⟨res, hres⟩ := Option.isSome_iff_exists.mp h1
  refine ⟨⟨nm, res⟩, ?_, rfl⟩
  have hemp : (defaultVariables shell os).isEmpty = false := rfl
  simp [SystemRole.init, pyFormat, hemp, hres]

/-- `bootStep` never changes an existing record. -/
theorem bootStep_preserves (st : Store) (r : SystemRole) (n : Str) (v : SystemRole)
    (h : st n = some v) : bootStep st r n = some v := by
  by_cases he : (st r.name).isSome = true
  · simp [bootStep, he, h]
  · by_cases hn : n = r.name
    · exact absurd (by simp [hn ▸ h]) he
    · simp [bootStep, he, writeRole, hn, h]

/-- `bootStep` keeps every name populated. -/
theorem bootStep_isSome (st : Store) (r : SystemRole) (n : Str)
    (h : (st n).isSome = true) : ((bootStep st r) n).isSome = true := by
  obtain ⟨v, hv⟩ := Option.isSome_iff_exists.mp h
  simp [bootStep_preserves st r n v hv]

/-- After `bootStep st r` the name of `r` is populated. -/
theorem bootStep_self (st : Store) (r : SystemRole) :
    ((bootStep st r) r.name).isSome = true := by
  by_cases he : (st r.name).isSome = true
  · simp [bootStep, he]
  · simp [bootStep, he, writeRole]

/-- `bootStep` is the identity when the role's name is already
populated. -/
theorem bootStep_skip (st : Store) (r : SystemRole) (h : (st r.name).isSome = true) :
    bootStep st r = st := by
  simp [bootStep, h]

/-!
## Claim theorems
-/

/-- Claim C1: for every combination of the four boolean intent flags,
`DefaultRoles.check_get` queries the store for exactly the role determined
by the spec's priority order shell-mode > describe-mode > code-mode >
fix-mode > default (`roleSelectorSpec`); in particular, whenever both
`shell` and `code` are set it queries the Shell Command Generator record,
whose name differs from Code Generator. -/
theorem DefaultRoles_check_get_priority_c1 :
    (∀ (st : Store) (s d c f : Bool),
      DefaultRoles.check_get st s d c f = SystemRole.get st (roleSelectorSpec s d c f).value)
    ∧ (∀ (st : Store) (d f : Bool),
      DefaultRoles.check_get st true d true f = SystemRole.get st DefaultRoles.SHELL.value)
    ∧ DefaultRoles.SHELL.value ≠ DefaultRoles.CODE.value := by
  refine ⟨?_, ?_, by decide⟩
  · intro st s d c f
    cases s <;> cases d <;> cases c <;> cases f <;> rfl
  · intro st d f
    cases d <;> cases f <;> rfl

/-- Claim C2: `create_defaults` succeeds on every prior storage state; the
resulting store has a record for each of the five default role names (the
map model gives at most one record per name, hence exactly one), a second
call returns the same store unchanged (idempotence, so no existing
record's bytes change), and the first call leaves every record that
already existed untouched. -/
theorem SystemRole_create_defaults_idempotent_c2 (shell os : Str) (st : Store) :
    ∃ st' : Store, SystemRole.create_defaults shell os st = some st'
      ∧ (∀ n ∈ defaultNames, (st' n).isSome = true)
      ∧ SystemRole.create_defaults shell os st' = some st'
      ∧ (∀ n v, st n = some v → st' n = some v) := by
  obtain ⟨r1, h1, hn1⟩ :=
    init_default_isSome shell os (str "ShellGPT") DEFAULT_ROLE (by decide) (by decide)
  obtain ⟨r2, h2, hn2⟩ :=
    init_default_isSome shell os (str "Shell Command Generator") SHELL_ROLE
      (by decide) (by decide)
  obtain ⟨r3, h3, hn3⟩ :=
    init_default_isSome shell os (str "Shell Command Descriptor") DESCRIBE_SHELL_ROLE
      (by decide) (by decide)
  have h4 : SystemRole.init (str "Code Generator") CODE_ROLE none
      = some ⟨str "Code Generator", CODE_ROLE⟩ := rfl
  obtain ⟨r5, h5, hn5⟩ :=
    init_default_isSome shell os (str "Shell Command Fixer") SHELL_COMMAND_FIXER_ROLE
      (by decide) (by decide)
  set r4 : SystemRole := ⟨str "Code Generator", CODE_ROLE⟩ with hr4
  have hn4 : r4.name = str "Code Generator" := rfl
  refine ⟨bootStep (bootStep (bootStep (bootStep (bootStep st r1) r2) r3) r4) r5, ?_, ?_, ?_, ?_⟩
  · simp [SystemRole.create_defaults, h1, h2, h3, h4, h5, List.foldl]
  · set b5 := bootStep (bootStep (bootStep (bootStep (bootStep st r1) r2) r3) r4) r5 with hb5
    have k1 : (b5 r1.name).isSome = true :=
      bootStep_isSome _ r5 _ (bootStep_isSome _ r4 _ (bootStep_isSome _ r3 _
        (bootStep_isSome _ r2 _ (bootStep_self st r1))))
    have k2 : (b5 r2.name).isSome = true :=
      bootStep_isSome _ r5 _ (bootStep_isSome _ r4 _ (bootStep_isSome _ r3 _
        (bootStep_self _ r2)))
    have k3 : (b5 r3.name).isSome = true :=
      bootStep_isSome _ r5 _ (bootStep_isSome _ r4 _ (bootStep_self _ r3))
    have k4 : (b5 r4.name).isSome = true := bootStep_isSome _ r5 _ (bootStep_self _ r4)
    have k5 : (b5 r5.name).isSome = true := bootStep_self _ r5
    intro n hn
    simp only [defaultNames, List.mem_cons, List.mem_singleton] at hn
    rcases hn with hn | hn | hn | hn | hn | hn
    · exact hn ▸ (hn1 ▸ k1)
    · exact hn ▸ (hn2 ▸ k2)
    · exact hn ▸ (hn3 ▸ k3)
    · exact hn ▸ (hn4 ▸ k4)
    · exact hn ▸ (hn5 ▸ k5)
    · simp at hn
  · set b5 := bootStep (bootStep (bootStep (bootStep (bootStep st r1) r2) r3) r4) r5 with hb5
    have k1 : (b5 r1.name).isSome = true :=
      bootStep_isSome _ r5 _ (bootStep_isSome _ r4 _ (bootStep_isSome _ r3 _
        (bootStep_isSome _ r2 _ (bootStep_self st r1))))
    have k2 : (b5 r2.name).isSome = true :=
      bootStep_isSome _ r5 _ (bootStep_isSome _ r4 _ (bootStep_isSome _ r3 _
        (bootStep_self _ r2)))
    have k3 : (b5 r3.name).isSome = true :=
      bootStep_isSome _ r5 _ (bootStep_isSome _ r4 _ (bootStep_self _ r3))
    have k4 : (b5 r4.name).isSome = true := bootStep_isSome _ r5 _ (bootStep_self _ r4)
    have k5 : (b5 r5.name).isSome = true := bootStep_self _ r5
    simp only [SystemRole.create_defaults, h1, h2, h3, h4, h5, List.foldl]
    rw [bootStep_skip _ _ k1, bootStep_skip _ _ k2, bootStep_skip _ _ k3,
      bootStep_skip _ _ k4, bootStep_skip _ _ k5]
  · intro n v hv
    exact bootStep_preserves _ r5 _ _ (bootStep_preserves _ r4 _ _ (bootStep_preserves _ r3 _ _
      (bootStep_preserves _ r2 _ _ (bootStep_preserves _ r1 _ _ hv))))

/-- Witness for C2 at a concrete shell, OS and one-record prior store: the
call succeeds and the pre-existing record is untouched. -/
theorem SystemRole_create_defaults_idempotent_c2_witness :
    ∃ st' : Store,
      SystemRole.create_defaults (str "bash") (str "Linux")
        (fun n => if n = str "my-role" then some ⟨str "my-role", str "custom text"⟩ else none)
        = some st'
      ∧ st' (str "my-role") = some ⟨str "my-role", str "custom text"⟩ := by
  obtain ⟨st', hcd, _, _, hpres⟩ :=
    SystemRole_create_defaults_idempotent_c2 (str "bash") (str "Linux")
      (fun n => if n = str "my-role" then some ⟨str "my-role", str "custom text"⟩ else none)
  exact ⟨st', hcd, hpres _ _ (by decide)⟩

/-- Claim C3: for every built-in role name and every in-memory role body,
the persisted role text written by `_save` is `wrap name body`, and
`get_role_name` applied to its first line returns exactly the record's
name. -/
theorem get_role_name_roundtrip_c3 (name body : Str) (h : name ∈ defaultNames) :
    get_role_name (firstLine (wrap name body)) = some name := by
  simp only [defaultNames, List.mem_cons, List.mem_singleton] at h
  rcases h with h | h | h | h | h | h
  · exact h ▸ get_role_name_wrap _ body (by decide) (by decide)
  · exact h ▸ get_role_name_wrap _ body (by decide) (by decide)
  · exact h ▸ get_role_name_wrap _ body (by decide) (by decide)
  · exact h ▸ get_role_name_wrap _ body (by decide) (by decide)
  · exact h ▸ get_role_name_wrap _ body (by decide) (by decide)
  · simp at h

/-- Witness for C3 at the concrete name `ShellGPT` and a concrete body. -/
theorem get_role_name_roundtrip_c3_witness :
    get_role_name (firstLine (wrap (str "ShellGPT") (str "some role body")))
      = some (str "ShellGPT") :=
  get_role_name_roundtrip_c3 (str "ShellGPT") (str "some role body") (by decide)

/-- Claim C4: `_save` on an already-present role name with the overwrite
confirmation declined aborts (`typer.confirm(abort=True)` raises before the
write) and performs no mutation: the resulting store — in particular the
persisted file under that name — is identical to the store before the
call. -/
theorem save_declined_aborts_c4 (st : Store) (r : SystemRole)
    (h : (st r.name).isSome = true) :
    saveRun st r false = (st, false) := by
  simp [saveRun, h]

/-- Witness for C4 at a concrete one-record store. -/
theorem save_declined_aborts_c4_witness :
    saveRun
      (fun n => if n = str "ShellGPT" then some ⟨str "ShellGPT", str "old text"⟩ else none)
      ⟨str "ShellGPT", str "new text"⟩ false
      = ((fun n => if n = str "ShellGPT" then some ⟨str "ShellGPT", str "old text"⟩ else none),
        false) :=
  save_declined_aborts_c4 _ _ (by decide)

/-- Claim C5 (refuting evaluation): on the spec's scenario A input the
primary extractor returns the opening fence line, not the fenced command.
The sed range prints the whole block but `head -n 1` keeps only its first
line — the fence marker itself — and the final trimming substitution does
not match a line with no trailing backticks, so the result is the fence
line, not `ls -la` as the claim states. -/
theorem parse_first_markdown_scenarioA_c5 :
    parse_first_markdown (str "Run this:\n```bash\nls -la\n```\nDone.") = str "```bash"
      ∧ str "```bash" ≠ str "ls -la" := by
  constructor
  · decide
  · decide

/-- Claim C6 (refuting evaluation): on the spec's scenario B input (no
fences) the fallback returns the whole text, not only the first line: the
substitution `s/\n.*//` never matches because sed's pattern space contains
no newline, so nothing is discarded. -/
theorem parse_first_markdown_scenarioB_c6 :
    parse_first_markdown (str "echo hello\nand then more text")
        = str "echo hello\nand then more text"
      ∧ str "echo hello\nand then more text" ≠ str "echo hello" := by
  constructor
  · decide
  · decide

/-- Claim C7 (refuting evaluation): the fix-mode extractor does satisfy the
spec's scenario C, but it does not capture only the content after the
*last* bash-tagged fence: its sed range prints every bash-fenced block from
the *first* fence onward, so an input with two bash blocks `aaa` and `bbb`
yields the concatenation `aaabbb`, where the claim (and the code's own
comment) demand `bbb`. -/
theorem parse_last_markdown_scenarioC_c7 :
    parse_last_markdown (str "Explanation text\n```bash -c\nfixed --flag value\nmore line\n```")
        = str "fixed --flag valuemore line"
      ∧ parse_last_markdown (str "```bash\naaa\n```\n```bash\nbbb\n```") = str "aaabbb"
      ∧ str "aaabbb" ≠ str "bbb" := by
  refine ⟨by decide, by decide, by decide⟩

/-- Claim C8 counterexample: the caller does *not* treat an empty fix
result as a no-op.  With a nonempty buffer and a model response containing
no bash fence, `_sgpt_bash_fix` assigns the extractor's empty result to
`READLINE_LINE`, silently replacing the buffer with emptiness. -/
theorem sgpt_bash_fix_overwrite_c8_counterexample :
    sgpt_bash_fix (str "ls -la") (str "The command looks correct.") = []
      ∧ str "ls -la" ≠ [] := by
  constructor
  · decide
  · decide

/-- Claim C8 as amended: for every model output containing no line with a
bash-tagged fence the fix-mode extractor returns the empty string, and the
calling fix integration then assigns that empty result to the nonempty
line-editor buffer, clearing it (there is no no-op guard). -/
theorem parse_last_no_fence_c8 (t : Str)
    (h : ∀ l ∈ sedLines t, matchesBashFence l = false) :
    parse_last_markdown t = [] ∧ ∀ buf : Str, buf ≠ [] → sgpt_bash_fix buf t = [] := by
  have hb : sedRange matchesBashFence containsBacktickB (sedLines t) false = [] :=
    sedRange_nil_of_no_start _ _ _ h
  have hp : parse_last_markdown t = [] := by
    simp [parse_last_markdown, hb, joinNl, cmdSubst]
  refine ⟨hp, ?_⟩
  intro buf hbuf
  cases buf with
  | nil => exact absurd rfl hbuf
  | cons c cs => simpa [sgpt_bash_fix] using hp

/-- Witness for C8 (amended) at a concrete fence-free model output and a
concrete nonempty buffer. -/
theorem parse_last_no_fence_c8_witness :
    parse_last_markdown (str "The model suggests nothing useful.") = []
      ∧ sgpt_bash_fix (str "pwd") (str "The model suggests nothing useful.") = [] :=
  ⟨(parse_last_no_fence_c8 _ (by decide)).1,
    (parse_last_no_fence_c8 _ (by decide)).2 _ (by decide)⟩

/-- Claim C9: instantiating a role from a template that references a
placeholder absent from the supplied (truthy) mapping fails with a
formatting error (`none`, modelling the uncaught `KeyError`), which
therefore surfaces to the caller; and the placeholder-free Code Generator
template instantiates successfully with no variables supplied. -/
theorem role_template_missing_variable_c9 :
    (∀ (nm t : Str) (vars : VarMap) (k : Str),
      vars.isEmpty = false → k ∈ placeholders t → lookupVar vars k = none →
        SystemRole.init nm t (some vars) = none)
    ∧ SystemRole.init (str "Code Generator") CODE_ROLE none
        = some ⟨str "Code Generator", CODE_ROLE⟩
    ∧ placeholders CODE_ROLE = [] := by
  refine ⟨?_, rfl, by decide⟩
  intro nm t vars k hne hk hnone
  simp [SystemRole.init, hne, pyFormat,
    formatGo_none_of_missing (lookupVar vars) t none k hk hnone]

/-- Witness for C9 at a concrete template referencing `shell` and a
concrete mapping lacking it. -/
theorem role_template_missing_variable_c9_witness :
    SystemRole.init (str "x") (str "a {shell} b") (some [(str "os", str "Linux")]) = none :=
  role_template_missing_variable_c9.1 _ _ _ (str "shell") (by decide) (by decide) (by decide)

/-- Claim C10: `_save` unconditionally rewraps the in-memory role text, so
saving a record loaded by `get` (whose stored text already starts with the
header) persists a text beginning with the header twice; in particular the
stored bytes change, so get-then-save is not a byte-identical round
trip. -/
theorem save_rewraps_header_c10 (st : Store) (n body : Str) (r : SystemRole)
    (hget : SystemRole.get st n = some r) (hname : r.name = n)
    (hrole : r.role = wrap n body) :
    (saveRun st r true).1 n = some ⟨n, wrap n (wrap n body)⟩
      ∧ wrap n (wrap n body) ≠ wrap n body := by
  constructor
  · simp [saveRun, writeRole, hname, hrole]
  · intro heq
    have hlen := congrArg List.length heq
    have h8 : (str "You are ").length = 8 := by decide
    simp only [wrap, List.length_append, List.length_cons, h8] at hlen
    omega

/-- Witness for C10 at a concrete store holding one header-wrapped
record. -/
theorem save_rewraps_header_c10_witness :
    (saveRun
        (fun n => if n = str "ShellGPT"
          then some ⟨str "ShellGPT", wrap (str "ShellGPT") (str "hello")⟩ else none)
        ⟨str "ShellGPT", wrap (str "ShellGPT") (str "hello")⟩ true).1 (str "ShellGPT")
      = some ⟨str "ShellGPT", wrap (str "ShellGPT") (wrap (str "ShellGPT") (str "hello"))⟩
    ∧ wrap (str "ShellGPT") (wrap (str "ShellGPT") (str "hello"))
      ≠ wrap (str "ShellGPT") (str "hello") :=
  save_rewraps_header_c10 _ (str "ShellGPT") (str "hello") _ (by decide) (by decide) (by decide)
